import Mathlib

/-!
Shallow embedding of the authentication and request-authorization subsystem
of the movieAPIportfolio Express application.

Each definition below is translated from a concrete source location:
* `signToken`, `sendAuthResponse`, `register`/`login`/`logout`,
  `changePassword`, `forgotPassword`, `resetPassword`
  — src/controllers/authController.js
* `protect` — src/middlewares/auth.js
* `requireCsrf` — src/middlewares/requireCsrf.js
* `googleAuthHandler` — src/controllers/googleAuthController.js

Modelling conventions:
* MySQL rows become a `List User` (the `users` table); `SELECT ... WHERE ... LIMIT 1`
  becomes `List.find?`, `UPDATE ... WHERE id = ?` becomes a map over rows with
  that id (the primary key is unique).
* Timestamps are naturals in milliseconds (`NOW()`, `Date.now()`,
  `password_changed_at`, `password_reset_expires`); a JWT `iat`/`exp` is in
  seconds, exactly as in the source (`decoded.iat * 1000` converts).
* The external bcryptjs and crypto libraries are modelled as injective tag
  functions: `bcryptHash`/`bcryptCompare` and `sha256Hex`. Only the algebra the
  code relies on (compare succeeds exactly on the hash of the same plaintext;
  hashing is deterministic) is kept.
* The external jsonwebtoken library is modelled symbolically: a signed token
  carries its payload and the secret it was signed with; verification checks
  the secret and the expiry (`jsonwebtoken` rejects once `now >= exp`).
* JavaScript truthiness on nullable strings (`!token`, `cookieToken ||`,
  `!user.password`) is modelled by `jsTruthyStr`: `none` and the empty string
  are falsy.
-/

namespace MovieAuth

/-- JavaScript truthiness of a possibly-absent string: `undefined`/`null` and
the empty string are falsy, every other string is truthy. -/
def jsTruthyStr (o : Option String) : Bool :=
  !(o.getD "").isEmpty

/-- Truthiness of a present string is its nonemptiness. -/
theorem jsTruthyStr_some (x : String) : jsTruthyStr (some x) = !x.isEmpty :=
  rfl

/-- Models bcryptjs `hash(plain, 12)` (external library): a deterministic,
injective encoding of the plaintext. -/
def bcryptHash (plain : String) : String :=
  "bcrypt12$" ++ plain

/-- Models bcryptjs `compare(plain, hash)` (external library): succeeds exactly
when the stored hash was produced from the same plaintext. -/
def bcryptCompare (plain hash : String) : Bool :=
  hash == bcryptHash plain

/-- Models the Node crypto module sha256 hex digest (external library):
a deterministic, injective encoding. -/
def sha256Hex (s : String) : String :=
  "sha256$" ++ s

/-- A row of the `users` table, with the columns the auth subsystem touches.
`active` is the MySQL tinyint; times are milliseconds since the epoch. -/
structure User where
  id : Nat
  name : String
  email : String
  password : Option String
  role : String
  provider : String
  provider_id : Option String
  active : Int
  password_changed_at : Option Nat
  password_reset_token : Option String
  password_reset_expires : Option Nat
deriving Repr, DecidableEq

/-- The operational error produced by `new AppError(message, statusCode)`. -/
structure AppErr where
  statusCode : Nat
  message : String
deriving Repr, DecidableEq

/-- Environment configuration read from `process.env` by the auth code. -/
structure Env where
  jwtSecret : Option String
  jwtExpiresInSec : Option Nat
  googleClientId : Option String
deriving Repr, DecidableEq

/-- The claims of a signed session token: `{ id, role }` plus the `iat` and
`exp` (seconds) that `jwt.sign` adds. -/
structure JwtPayload where
  id : Nat
  role : String
  iat : Nat
  exp : Nat
deriving Repr, DecidableEq

/-- A signed token, modelled symbolically: the payload together with the
secret it was signed with. -/
structure Jwt where
  payload : JwtPayload
  secret : String
deriving Repr, DecidableEq

/-- Models jwt.verify with the HS256 algorithm restriction: the
signature check is a secret comparison, and jsonwebtoken rejects an expired
token once the clock reaches `exp` (seconds). -/
def jwtVerify (t : Jwt) (secret : String) (nowSec : Nat) : Option JwtPayload :=
  if t.secret == secret && nowSec < t.payload.exp then some t.payload else none

/-- Translated from `signToken` in src/controllers/authController.js:
requires `JWT_SECRET` (a configuration error otherwise, thrown, not an
`AppError`), expiry from `JWT_EXPIRES_IN` defaulting to 7 days (604800 s). -/
def signToken (env : Env) (id : Nat) (role : String) (iatSec : Nat) :
    Except String Jwt :=
  match env.jwtSecret with
  | none => .error "JWT_SECRET is missing in environment variables"
  | some s =>
      .ok { payload := { id := id, role := role, iat := iatSec,
                         exp := iatSec + env.jwtExpiresInSec.getD 604800 },
            secret := s }

/-- Result of an auth endpoint that answers through `sendAuthResponse`:
a success status with the fresh token and the (safe-field) user, an
operational `AppError`, or a thrown configuration error. -/
inductive AuthOut where
  | ok (status : Nat) (token : Jwt) (user : User)
  | err (e : AppErr)
  | fatal (msg : String)
deriving Repr, DecidableEq

/-- HTTP status carried by an `AuthOut` (a thrown error surfaces as 500). -/
def authStatus : AuthOut → Nat
  | .ok s _ _ => s
  | .err e => e.statusCode
  | .fatal _ => 500

/-- Translated from `sendAuthResponse` in src/controllers/authController.js:
sign a token over `{ id, role }` and answer with it plus the user. -/
def sendAuthResponse (env : Env) (user : User) (statusCode : Nat)
    (nowSec : Nat) : AuthOut :=
  match signToken env user.id user.role nowSec with
  | .error m => .fatal m
  | .ok t => .ok statusCode t user

/-- Request view taken by the `protect` middleware. `bearerToken` stands for
an `Authorization: Bearer <token>` header (absent when the header is missing
or not Bearer-shaped); `cookieJwt` is the `jwt` cookie. -/
structure ProtectReq where
  bearerToken : Option Jwt
  cookieJwt : Option Jwt
deriving Repr, DecidableEq

/-- Outcome of `protect`: the request proceeds with `req.user` and `req.auth`
attached, or is rejected with an `AppError`, or a configuration error is
thrown. -/
inductive ProtectOut where
  | ok (user : User) (auth : JwtPayload)
  | err (e : AppErr)
  | fatal (msg : String)
deriving Repr, DecidableEq

/-- Translated from `exports.protect` in src/middlewares/auth.js, step by
step: header-then-cookie extraction, missing-token 401, missing-secret throw,
verify (bad signature or expired 401, falsy payload id 401), user lookup
(gone 401), active check (403), stale-password check with the 1 s buffer
(`passwordChangedAtMs > iat*1000 + 1000` → 401), then attach. -/
def protect (env : Env) (store : List User) (req : ProtectReq)
    (nowSec : Nat) : ProtectOut :=
  match req.bearerToken <|> req.cookieJwt with
  | none => .err ⟨401, "You are not logged in. Please log in."⟩
  | some t =>
    match env.jwtSecret with
    | none => .fatal "JWT_SECRET is missing in environment variables"
    | some secret =>
      match jwtVerify t secret nowSec with
      | none => .err ⟨401, "Invalid or expired token. Please log in again."⟩
      | some decoded =>
        if decoded.id == 0 then
          .err ⟨401, "Invalid token payload. Please log in again."⟩
        else
          match store.find? (fun u => u.id == decoded.id) with
          | none => .err ⟨401, "The user belonging to this token no longer exists."⟩
          | some user =>
            if user.active != 1 then
              .err ⟨403, "This account is disabled."⟩
            else
              match user.password_changed_at with
              | some pcMs =>
                if decoded.iat != 0 && pcMs > decoded.iat * 1000 + 1000 then
                  .err ⟨401, "Password was changed recently. Please log in again."⟩
                else .ok user decoded
              | none => .ok user decoded

/-- A SQL `UPDATE users SET ... WHERE id = ? LIMIT 1`: the primary key is
unique, so updating every row with that id is the same single-row update. -/
def updateUser (store : List User) (id : Nat) (f : User → User) : List User :=
  store.map (fun u => if u.id == id then f u else u)

/-- Body of `POST /api/v1/auth/login`; an absent field arrives as the empty
string (JS falsiness). -/
structure LoginBody where
  email : String
  password : String
deriving Repr, DecidableEq

/-- Translated from `exports.login` in src/controllers/authController.js:
required fields, lookup by email (generic 401 when absent), active gate
(403) before any password handling, missing local password 401, bcrypt
comparison (generic 401), then `sendAuthResponse` with a fresh token. -/
def login (env : Env) (store : List User) (b : LoginBody) (nowSec : Nat) :
    AuthOut :=
  if b.email.isEmpty || b.password.isEmpty then
    .err ⟨400, "Please provide email and password"⟩
  else
    match store.find? (fun u => u.email == b.email) with
    | none => .err ⟨401, "Incorrect email or password"⟩
    | some user =>
      if user.active != 1 then .err ⟨403, "Account is disabled"⟩
      else if !jsTruthyStr user.password then
        .err ⟨401, "This account does not have a local password"⟩
      else if !bcryptCompare b.password (user.password.getD "") then
        .err ⟨401, "Incorrect email or password"⟩
      else sendAuthResponse env user 200 nowSec

/-- The cookie written by `res.cookie` in `logout`: name, value and the
option set used to clear it. -/
structure ClearCookie where
  name : String
  value : String
  httpOnly : Bool
  sameSiteLax : Bool
  expiresMs : Nat
deriving Repr, DecidableEq

/-- Translated from `exports.logout` in src/controllers/authController.js:
no database query runs, the `jwt` cookie is overwritten with the empty value
and an immediately past expiry (`new Date(0)`), and a 200 success body is
returned. The store is returned unchanged because the handler touches no
server-side state. -/
def logout (store : List User) : List User × ClearCookie × Nat × String :=
  (store,
   { name := "jwt", value := "", httpOnly := true, sameSiteLax := true,
     expiresMs := 0 },
   200, "Logged out successfully.")

/-- Body of `PATCH /api/v1/auth/change-password`; absent fields arrive as the
empty string (JS falsiness). -/
structure ChangePwBody where
  currentPassword : String
  newPassword : String
  newPasswordConfirm : String
deriving Repr, DecidableEq

/-- Translated from `exports.changePassword` in
src/controllers/authController.js, steps 1-14: required fields (400),
confirmation match (400), new-differs-from-current (400), lookup of
`req.user.id` (404), active gate (403), local-password presence (400),
bcrypt check of the current password (401), then
`UPDATE users SET password = ?, password_changed_at = NOW() WHERE id = ?`,
reload, and `sendAuthResponse` with a fresh token. `nowMs` is both the SQL
`NOW()` stamp and the signing instant of the fresh token. -/
def changePassword (env : Env) (store : List User) (userId : Nat)
    (b : ChangePwBody) (nowMs : Nat) : List User × AuthOut :=
  if b.currentPassword.isEmpty || b.newPassword.isEmpty ||
      b.newPasswordConfirm.isEmpty then
    (store, .err ⟨400, "Please provide currentPassword, newPassword and newPasswordConfirm"⟩)
  else if b.newPassword != b.newPasswordConfirm then
    (store, .err ⟨400, "New password and confirmation do not match"⟩)
  else if b.currentPassword == b.newPassword then
    (store, .err ⟨400, "New password must be different from current password"⟩)
  else
    match store.find? (fun u => u.id == userId) with
    | none => (store, .err ⟨404, "User not found"⟩)
    | some user =>
      if user.active != 1 then
        (store, .err ⟨403, "This account is disabled."⟩)
      else if !jsTruthyStr user.password then
        (store, .err ⟨400, "This account does not have a local password to change"⟩)
      else if !bcryptCompare b.currentPassword (user.password.getD "") then
        (store, .err ⟨401, "Your current password is wrong"⟩)
      else
        let store' := updateUser store userId (fun u =>
          { u with password := some (bcryptHash b.newPassword),
                   password_changed_at := some nowMs })
        match store'.find? (fun u => u.id == userId) with
        | none => (store', .fatal "updated user vanished")
        | some updated => (store', sendAuthResponse env updated 200 (nowMs / 1000))

/-- Client-visible response of `POST /api/v1/auth/forgot-password`: status,
message, and the plaintext reset token when the body carries one. -/
inductive ForgotOut where
  | ok (status : Nat) (message : String) (resetToken : Option String)
  | err (e : AppErr)
deriving Repr, DecidableEq

/-- Translated from `exports.forgotPassword` in
src/controllers/authController.js: required email (400); unknown email and
disabled account both answer 200 with the generic message; otherwise a
random token (`randomToken` models the 32 random bytes rendered as hex)
is hashed and stored with a 10-minute expiry, and the 200 response carries a
different message plus the plaintext token (testing mode). -/
def forgotPassword (store : List User) (email : String)
    (randomToken : String) (nowMs : Nat) : List User × ForgotOut :=
  if email.isEmpty then
    (store, .err ⟨400, "Please provide your email"⟩)
  else
    match store.find? (fun u => u.email == email) with
    | none =>
      (store, .ok 200 "If that email exists, a password reset token has been issued." none)
    | some user =>
      if user.active != 1 then
        (store, .ok 200 "If that email exists, a password reset token has been issued." none)
      else
        let hashed := sha256Hex randomToken
        let expires := nowMs + 10 * 60 * 1000
        let store' := updateUser store user.id (fun u =>
          { u with password_reset_token := some hashed,
                   password_reset_expires := some expires })
        (store', .ok 200 "Password reset token generated (testing mode)." (some randomToken))

/-- Body of `POST /api/v1/auth/reset-password/:token`. -/
structure ResetPwBody where
  newPassword : String
  newPasswordConfirm : String
deriving Repr, DecidableEq

/-- Row predicate of the reset lookup:
`password_reset_token = ? AND password_reset_expires IS NOT NULL AND
password_reset_expires > NOW()`. -/
def resetLookup (hashed : String) (nowMs : Nat) (u : User) : Bool :=
  u.password_reset_token == some hashed &&
    (match u.password_reset_expires with
     | some e => nowMs < e
     | none => false)

/-- Translated from `exports.resetPassword` in
src/controllers/authController.js: missing token (400), required body fields
(400), confirmation match (400), lookup by the SHA-256 of the token with a
strictly future expiry (otherwise 400 invalid-or-expired), active gate
(403), then the update that stores the new hash, stamps
`password_changed_at = NOW()` and clears both reset fields, reload, and
`sendAuthResponse`. -/
def resetPassword (env : Env) (store : List User) (tokenParam : String)
    (b : ResetPwBody) (nowMs : Nat) : List User × AuthOut :=
  if tokenParam.isEmpty then
    (store, .err ⟨400, "Reset token is missing"⟩)
  else if b.newPassword.isEmpty || b.newPasswordConfirm.isEmpty then
    (store, .err ⟨400, "Please provide newPassword and newPasswordConfirm"⟩)
  else if b.newPassword != b.newPasswordConfirm then
    (store, .err ⟨400, "New password and confirmation do not match"⟩)
  else
    let hashed := sha256Hex tokenParam
    match store.find? (resetLookup hashed nowMs) with
    | none => (store, .err ⟨400, "Token is invalid or has expired"⟩)
    | some user =>
      if user.active != 1 then
        (store, .err ⟨403, "This account is disabled."⟩)
      else
        let store' := updateUser store user.id (fun u =>
          { u with password := some (bcryptHash b.newPassword),
                   password_changed_at := some nowMs,
                   password_reset_token := none,
                   password_reset_expires := none })
        match store'.find? (fun u => u.id == user.id) with
        | none => (store', .fatal "updated user vanished")
        | some updated => (store', sendAuthResponse env updated 200 (nowMs / 1000))

/-- Request view taken by the CSRF guard: the `csrfToken` cookie, the
`x-csrf-token` header and the `_csrf` body field. -/
structure CsrfReq where
  cookieCsrfToken : Option String
  headerToken : Option String
  bodyToken : Option String
deriving Repr, DecidableEq

/-- Outcome of the CSRF guard. -/
inductive CsrfOut where
  | pass
  | err (e : AppErr)
deriving Repr, DecidableEq

/-- Translated from src/middlewares/requireCsrf.js:
`sentToken = headerToken || bodyToken`; missing cookie 403, missing sent
token 403, mismatch 403, equal passes. -/
def requireCsrf (req : CsrfReq) : CsrfOut :=
  let cookieToken := req.cookieCsrfToken
  let sentToken := if jsTruthyStr req.headerToken then req.headerToken
                   else req.bodyToken
  if !jsTruthyStr cookieToken then
    .err ⟨403, "Missing CSRF cookie token."⟩
  else if !jsTruthyStr sentToken then
    .err ⟨403, "Missing CSRF token in request."⟩
  else if sentToken != cookieToken then
    .err ⟨403, "Invalid CSRF token."⟩
  else .pass

/-- Models JavaScript `String.prototype.trim`: drop leading and trailing
whitespace. (Defined over the character list so that it reduces in the
kernel.) -/
def jsTrim (s : String) : String :=
  ⟨((s.data.dropWhile Char.isWhitespace).reverse.dropWhile
      Char.isWhitespace).reverse⟩

/-- Models JavaScript `String.prototype.toLowerCase` (ASCII range). -/
def jsToLower (s : String) : String :=
  ⟨s.data.map Char.toLower⟩

/-- Models JavaScript `String.prototype.slice(0, n)`. -/
def jsTake (s : String) (n : Nat) : String :=
  ⟨s.data.take n⟩

/-- Translated from `normalizeEmail` in
src/controllers/googleAuthController.js: `.trim().toLowerCase()`. -/
def normalizeEmail (email : String) : String :=
  jsToLower (jsTrim email)

/-- The payload of a verified Google ID token, as produced by the external
`google-auth-library` verifier (`ticket.getPayload()`); `email_verified` is
already collapsed to the boolean the code computes. -/
structure GooglePayload where
  sub : String
  email : Option String
  email_verified : Bool
  name : String
deriving Repr, DecidableEq

/-- Translated from `buildGoogleAuthHandler` in
src/controllers/googleAuthController.js. The external verifier is modelled
by its result `verifyResult` (none = verification failed / no payload);
`newUserId` models the AUTO_INCREMENT id of a freshly inserted row; `nowSec`
is the signing instant. Resolution: lookup by (provider google,
provider_id=sub); else lookup by normalized email and, when found, UPDATE
the provider fields of the row to the Google identity before anything else; else
INSERT a new active google user. Only after resolution is the active flag
checked (403). -/
def googleAuthHandler (env : Env) (store : List User)
    (credential : Option String) (verifyResult : Option GooglePayload)
    (newUserId : Nat) (nowSec : Nat) : List User × AuthOut :=
  if !jsTruthyStr credential then
    (store, .err ⟨400, "Google credential (id_token) is missing"⟩)
  else
    match env.googleClientId with
    | none => (store, .err ⟨500, "GOOGLE_CLIENT_ID is missing in environment variables"⟩)
    | some _ =>
      match verifyResult with
      | none => (store, .err ⟨401, "Invalid Google token"⟩)
      | some payload =>
        if payload.sub.isEmpty then
          (store, .err ⟨401, "Google user id (sub) is missing"⟩)
        else
          let emailOpt : Option String :=
            if jsTruthyStr payload.email then
              some (normalizeEmail (payload.email.getD ""))
            else none
          if !jsTruthyStr emailOpt then
            (store, .err ⟨400, "Google account did not provide an email"⟩)
          else if !payload.email_verified then
            (store, .err ⟨401, "Google email is not verified"⟩)
          else
            let email := emailOpt.getD ""
            let nameFromGoogle :=
              jsTake (jsTrim (if payload.name.isEmpty then "Google User"
                              else payload.name)) 100
            let finish := fun (st : List User) (user : User) =>
              if user.active != 1 then
                (st, AuthOut.err ⟨403, "Account is disabled"⟩)
              else (st, sendAuthResponse env user 200 nowSec)
            match store.find? (fun u =>
                u.provider == "google" && u.provider_id == some payload.sub) with
            | some user => finish store user
            | none =>
              match store.find? (fun u => u.email == email) with
              | some existing =>
                let store' := updateUser store existing.id (fun u =>
                  { u with provider := "google",
                           provider_id := some payload.sub })
                let user :=
                  (store'.find? (fun u => u.id == existing.id)).getD existing
                finish store' user
              | none =>
                let newUser : User :=
                  { id := newUserId, name := nameFromGoogle, email := email,
                    password := none, role := "USER", provider := "google",
                    provider_id := some payload.sub, active := 1,
                    password_changed_at := none,
                    password_reset_token := none,
                    password_reset_expires := none }
                let store' := store ++ [newUser]
                let user := (store'.find? (fun u => u.id == newUserId)).getD newUser
                finish store' user

/-! ## Helper lemmas -/

/-- Verification of a token with the signing secret succeeds before expiry
and returns the payload unchanged. -/
theorem jwtVerify_valid (t : Jwt) (s : String) (now : Nat)
    (hs : t.secret = s) (h : now < t.payload.exp) :
    jwtVerify t s now = some t.payload := by
  simp [jwtVerify, hs, h]

/-- Verification fails once the clock reaches the expiry. -/
theorem jwtVerify_expired (t : Jwt) (s : String) (now : Nat)
    (h : t.payload.exp ≤ now) : jwtVerify t s now = none := by
  simp [jwtVerify, Nat.not_lt.mpr h]

/-- If a row is the first one with a given id, then after an id-preserving
update the first row with that id is its image. -/
theorem find?_updateUser_of_find? (store : List User) (uid : Nat)
    (f : User → User) (hid : ∀ u, (f u).id = u.id) (user : User)
    (hfind : store.find? (fun u => u.id == uid) = some user) :
    (updateUser store uid f).find? (fun u => u.id == uid) = some (f user) := by
  induction store with
  | nil => simp at hfind
  | cons a l ih =>
    simp only [updateUser, List.map_cons, List.find?_cons] at hfind ⊢
    cases ha : a.id == uid with
    | true =>
      rw [ha] at hfind
      injection hfind with h
      subst h
      simp [ha, hid]
    | false =>
      rw [ha] at hfind
      simp only [ha, Bool.false_eq_true, if_false]
      exact ih hfind

/-- Any row found by id after an update of that id is the image of an
original row with that id. -/
theorem find?_updateUser_shape (store : List User) (uid : Nat)
    (f : User → User) (upd : User)
    (hf : (updateUser store uid f).find? (fun u => u.id == uid) = some upd) :
    ∃ orig, (orig.id == uid) = true ∧ upd = f orig := by
  have hmem := List.mem_of_find?_eq_some hf
  have hpred := List.find?_some hf
  simp only [updateUser, List.mem_map] at hmem
  obtain ⟨orig, _, horig⟩ := hmem
  by_cases hcase : (orig.id == uid) = true
  · exact ⟨orig, hcase, by rw [← horig, if_pos hcase]⟩
  · rw [if_neg hcase] at horig
    rw [← horig] at hpred
    exact absurd hpred hcase

/-- A successful change-password response carries the reloaded user, whose
`password_changed_at` is the `NOW()` of the request. -/
theorem changePassword_ok_stamps (env : Env) (store : List User) (uid : Nat)
    (b : ChangePwBody) (nowMs : Nat) (st' : List User) (out : AuthOut)
    (tok : Jwt) (upd : User)
    (h : changePassword env store uid b nowMs = (st', out))
    (hok : out = .ok 200 tok upd) :
    upd.password_changed_at = some nowMs := by
  subst hok
  unfold changePassword at h
  split at h
  · simp at h
  · split at h
    · simp at h
    · split at h
      · simp at h
      · split at h
        · simp at h
        · rename_i user _
          split at h
          · simp at h
          · split at h
            · simp at h
            · split at h
              · simp at h
              · simp only [] at h
                split at h
                · simp at h
                · rename_i updated hfind
                  unfold sendAuthResponse at h
                  split at h
                  · simp at h
                  · rename_i t hsign
                    rw [Prod.mk.injEq] at h
                    obtain ⟨-, hout⟩ := h
                    injection hout with _ _ hu
                    subst hu
                    obtain ⟨orig, -, horig⟩ :=
                      find?_updateUser_shape store uid _ updated hfind
                    subst horig
                    rfl

/-- A successful reset-password run requires a stored row whose reset-token
hash matches the supplied token and whose expiry is strictly in the future. -/
theorem resetPassword_ok_requires_lookup (env : Env) (store : List User)
    (tokP : String) (b : ResetPwBody) (nowMs : Nat) (st' : List User)
    (s' : Nat) (tk : Jwt) (upd : User)
    (h : resetPassword env store tokP b nowMs = (st', .ok s' tk upd)) :
    ∃ w, w ∈ store ∧ w.password_reset_token = some (sha256Hex tokP) ∧
      ∃ e, w.password_reset_expires = some e ∧ nowMs < e := by
  unfold resetPassword at h
  split at h
  · simp at h
  · split at h
    · simp at h
    · split at h
      · simp at h
      · simp only [] at h
        split at h
        · simp at h
        · rename_i user hfind
          have hmem := List.mem_of_find?_eq_some hfind
          have hpred := List.find?_some hfind
          unfold resetLookup at hpred
          rw [Bool.and_eq_true] at hpred
          obtain ⟨htk, hex⟩ := hpred
          refine ⟨user, hmem, by simpa using htk, ?_⟩
          revert hex
          cases user.password_reset_expires with
          | none => simp
          | some e => intro hex; exact ⟨e, rfl, by simpa using hex⟩

/-! ## Shared concrete fixtures for witnesses and counterexamples -/

/-- Environment with a signing secret, the default 7-day expiry and a
configured Google client id. -/
def envK : Env :=
  { jwtSecret := some "k", jwtExpiresInSec := none, googleClientId := some "g" }

/-- An active local user whose password is the hash of "oldpw1". -/
def aliceActive : User :=
  { id := 1, name := "Alice", email := "a@x.com",
    password := some (bcryptHash "oldpw1"), role := "USER",
    provider := "local", provider_id := none, active := 1,
    password_changed_at := none, password_reset_token := none,
    password_reset_expires := none }

/-! ## C7 — CSRF guard -/

/-- C7: for every state-changing request through the CSRF guard: missing
cookie → 403 "Missing CSRF cookie token."; cookie present but no echoed
value in header or body → 403 "Missing CSRF token in request."; echoed value
differing from the cookie → 403 "Invalid CSRF token."; echoed value equal to
the cookie → pass. -/
theorem requireCsrf_four_cases (r1 r2 r3 r4 : CsrfReq)
    (h1 : jsTruthyStr r1.cookieCsrfToken = false)
    (h2c : jsTruthyStr r2.cookieCsrfToken = true)
    (h2h : jsTruthyStr r2.headerToken = false)
    (h2b : jsTruthyStr r2.bodyToken = false)
    (h3c : jsTruthyStr r3.cookieCsrfToken = true)
    (h3s : jsTruthyStr (if jsTruthyStr r3.headerToken then r3.headerToken
                        else r3.bodyToken) = true)
    (h3ne : (if jsTruthyStr r3.headerToken then r3.headerToken
             else r3.bodyToken) ≠ r3.cookieCsrfToken)
    (h4c : jsTruthyStr r4.cookieCsrfToken = true)
    (h4eq : (if jsTruthyStr r4.headerToken then r4.headerToken
             else r4.bodyToken) = r4.cookieCsrfToken) :
    requireCsrf r1 = .err ⟨403, "Missing CSRF cookie token."⟩ ∧
    requireCsrf r2 = .err ⟨403, "Missing CSRF token in request."⟩ ∧
    requireCsrf r3 = .err ⟨403, "Invalid CSRF token."⟩ ∧
    requireCsrf r4 = .pass := by
  refine ⟨?_, ?_, ?_, ?_⟩
  · simp [requireCsrf, h1]
  · simp [requireCsrf, h2c, h2h, h2b]
  · simp [requireCsrf, h3c, h3s, h3ne]
  · simp [requireCsrf, h4c, h4eq]

/-- Concrete instance of the four CSRF cases. -/
theorem requireCsrf_four_cases_witness :
    requireCsrf ⟨none, some "t", none⟩ = .err ⟨403, "Missing CSRF cookie token."⟩ ∧
    requireCsrf ⟨some "t", none, none⟩ = .err ⟨403, "Missing CSRF token in request."⟩ ∧
    requireCsrf ⟨some "t", some "u", none⟩ = .err ⟨403, "Invalid CSRF token."⟩ ∧
    requireCsrf ⟨some "t", some "t", none⟩ = .pass :=
  requireCsrf_four_cases ⟨none, some "t", none⟩ ⟨some "t", none, none⟩
    ⟨some "t", some "u", none⟩ ⟨some "t", some "t", none⟩
    (by decide) (by decide) (by decide) (by decide) (by decide) (by decide)
    (by decide) (by decide) (by decide)

/-! ## C8 — token issue/verify round trip -/

/-- C8: a token issued by `signToken` for `(id, role)` verifies to the same
`id` and `role` claims at any instant before its expiry, and fails to verify
at any instant from the expiry on; the expiry is `iat` plus the configured
duration, defaulting to 7 days (604800 s). -/
theorem verify_issue_roundtrip (env : Env) (s : String) (id : Nat)
    (role : String) (iat now1 now2 : Nat)
    (hs : env.jwtSecret = some s)
    (h1 : now1 < iat + env.jwtExpiresInSec.getD 604800)
    (h2 : iat + env.jwtExpiresInSec.getD 604800 ≤ now2) :
    ∃ t, signToken env id role iat = .ok t ∧
      t.payload.id = id ∧ t.payload.role = role ∧ t.payload.iat = iat ∧
      t.payload.exp = iat + env.jwtExpiresInSec.getD 604800 ∧
      (env.jwtExpiresInSec = none → t.payload.exp = iat + 604800) ∧
      jwtVerify t s now1 = some t.payload ∧
      jwtVerify t s now2 = none := by
  refine ⟨{ payload := { id := id, role := role, iat := iat,
                         exp := iat + env.jwtExpiresInSec.getD 604800 },
            secret := s }, ?_, rfl, rfl, rfl, rfl, ?_, ?_, ?_⟩
  · simp [signToken, hs]
  · intro h; simp [h]
  · exact jwtVerify_valid _ _ _ rfl h1
  · exact jwtVerify_expired _ _ _ h2

/-- Concrete instance of the round trip: issue at second 10, verify at
second 11 (inside the 7-day window) and at second 604810 (just past it). -/
theorem verify_issue_roundtrip_witness :
    ∃ t, signToken envK 7 "USER" 10 = .ok t ∧
      t.payload.id = 7 ∧ t.payload.role = "USER" ∧ t.payload.iat = 10 ∧
      t.payload.exp = 10 + (envK.jwtExpiresInSec).getD 604800 ∧
      (envK.jwtExpiresInSec = none → t.payload.exp = 10 + 604800) ∧
      jwtVerify t "k" 11 = some t.payload ∧
      jwtVerify t "k" 604810 = none :=
  verify_issue_roundtrip envK "k" 7 "USER" 10 11 604810 rfl (by decide) (by decide)

/-! ## C9 — logout is a pure cookie clear -/

/-- C9: logout leaves the credential store untouched, and only overwrites
the `jwt` cookie with an empty value and an immediately past expiry; any
request that the session authenticator accepted before logout (in
particular a bearer presentation of a previously issued, unexpired token)
is still accepted afterwards, with the same principal. -/
theorem logout_changes_nothing (env : Env) (store : List User)
    (req : ProtectReq) (nowSec : Nat) (u : User) (d : JwtPayload)
    (hok : protect env store req nowSec = .ok u d) :
    (logout store).1 = store ∧
    (logout store).2.1 = { name := "jwt", value := "", httpOnly := true,
                           sameSiteLax := true, expiresMs := 0 } ∧
    protect env (logout store).1 req nowSec = .ok u d := by
  exact ⟨rfl, rfl, hok⟩

/-- Concrete instance: a valid bearer token still authenticates after
logout. -/
theorem logout_changes_nothing_witness :
    protect envK [aliceActive]
        ⟨some ⟨⟨1, "USER", 10, 604810⟩, "k"⟩, none⟩ 20 =
      .ok aliceActive ⟨1, "USER", 10, 604810⟩ ∧
    (logout [aliceActive]).1 = [aliceActive] ∧
    protect envK (logout [aliceActive]).1
        ⟨some ⟨⟨1, "USER", 10, 604810⟩, "k"⟩, none⟩ 20 =
      .ok aliceActive ⟨1, "USER", 10, 604810⟩ := by
  have h : protect envK [aliceActive]
      ⟨some ⟨⟨1, "USER", 10, 604810⟩, "k"⟩, none⟩ 20 =
      .ok aliceActive ⟨1, "USER", 10, 604810⟩ := by decide
  exact ⟨h, (logout_changes_nothing envK [aliceActive] _ 20 _ _ h).1,
    (logout_changes_nothing envK [aliceActive] _ 20 _ _ h).2.2⟩

/-! ## C1 — stale-password token invalidation -/

/-- A carol-style fixture: active local user whose password was changed at
50000 ms. -/
def carolChanged : User :=
  { id := 3, name := "Carol", email := "c@x.com",
    password := some (bcryptHash "cpw1"), role := "USER",
    provider := "local", provider_id := none, active := 1,
    password_changed_at := some 50000, password_reset_token := none,
    password_reset_expires := none }

/-- C1: when `passwordChangedAt` is set and later than `issuedAt + 1 s`, the
session authenticator rejects the token with 401 "password changed"; a token
issued within 1 second of (or after) the change passes this check; and a
successful password change stamps `password_changed_at` with the current
time, so every token issued strictly more than 1 second earlier is
invalidated. -/
theorem protect_stale_password (env : Env) (store : List User)
    (secret : String) (t : Jwt) (nowSec : Nat) (user : User) (pcMs : Nat)
    (hsec : env.jwtSecret = some secret)
    (hts : t.secret = secret)
    (hexp : nowSec < t.payload.exp)
    (hid : t.payload.id ≠ 0)
    (hiat : t.payload.iat ≠ 0)
    (hfind : store.find? (fun u => u.id == t.payload.id) = some user)
    (hactive : user.active = 1)
    (hpc : user.password_changed_at = some pcMs) :
    (t.payload.iat * 1000 + 1000 < pcMs →
      protect env store ⟨some t, none⟩ nowSec =
        .err ⟨401, "Password was changed recently. Please log in again."⟩) ∧
    (pcMs ≤ t.payload.iat * 1000 + 1000 →
      protect env store ⟨some t, none⟩ nowSec = .ok user t.payload) ∧
    (∀ st' out uid b nowMs tok upd,
      changePassword env store uid b nowMs = (st', out) →
      out = .ok 200 tok upd → upd.password_changed_at = some nowMs) := by
  have hv := jwtVerify_valid t secret nowSec hts hexp
  refine ⟨?_, ?_, ?_⟩
  · intro h
    simp [protect, hsec, hv, hid, hfind, hactive, hpc, hiat, h]
  · intro h
    simp [protect, hsec, hv, hid, hfind, hactive, hpc, Nat.not_lt.mpr h]
  · intro st' out uid b nowMs tok upd hchg hok
    exact changePassword_ok_stamps env store uid b nowMs st' out tok upd hchg hok

/-- Concrete instance: Carol changed her password at 50000 ms; a token with
`iat = 10 s` (11000 ms bound < 50000 ms) is rejected by the stale check. -/
theorem protect_stale_password_witness :
    envK.jwtSecret = some "k" ∧
    carolChanged.password_changed_at = some 50000 ∧
    ((10 * 1000 + 1000 < 50000 →
      protect envK [carolChanged] ⟨some ⟨⟨3, "USER", 10, 604810⟩, "k"⟩, none⟩ 20 =
        .err ⟨401, "Password was changed recently. Please log in again."⟩) ∧
     (50000 ≤ 10 * 1000 + 1000 →
      protect envK [carolChanged] ⟨some ⟨⟨3, "USER", 10, 604810⟩, "k"⟩, none⟩ 20 =
        .ok carolChanged ⟨3, "USER", 10, 604810⟩) ∧
     (∀ st' out uid b nowMs tok upd,
        changePassword envK [carolChanged] uid b nowMs = (st', out) →
        out = .ok 200 tok upd → upd.password_changed_at = some nowMs)) :=
  ⟨rfl, rfl,
    protect_stale_password envK [carolChanged] "k" ⟨⟨3, "USER", 10, 604810⟩, "k"⟩
      20 carolChanged 50000 rfl rfl (by decide) (by decide) (by decide)
      (by decide) rfl rfl⟩

/-! ## C2 — password policy -/

/-- Stated from the spec (section 4.6 policy), only to compare the spec policy
with the code: trimmed length in [5,128], at least one letter and at least
one digit. The code has no counterpart of this predicate. -/
def specPasswordPolicy (p : String) : Bool :=
  let t := (jsTrim p).data
  5 ≤ t.length && t.length ≤ 128 &&
    t.any (fun c => c.isAlpha) && t.any (fun c => c.isDigit)

/-- A modelled bcrypt hash is never the empty string. -/
theorem bcryptHash_isEmpty (p : String) : (bcryptHash p).isEmpty = false := by
  rw [bcryptHash, Bool.eq_false_iff, Ne, String.isEmpty_iff]
  intro h
  have hl : ("bcrypt12$" ++ p).length = 0 := by rw [h]; rfl
  rw [String.length_append] at hl
  have h9 : "bcrypt12$".length = 9 := rfl
  omega

/-- Comparing a password against its own hash succeeds. -/
theorem bcryptCompare_self (p : String) : bcryptCompare p (bcryptHash p) = true := by
  simp [bcryptCompare]

/-- C2 counterexample: the new password "aaa" violates the claimed policy
(trimmed length 3 < 5, no digit), yet the change-password handler accepts it
and answers 200 instead of the claimed 400. -/
theorem changePassword_no_policy_counterexample :
    specPasswordPolicy "aaa" = false ∧
    authStatus (changePassword envK [aliceActive] 1
      ⟨"oldpw1", "aaa", "aaa"⟩ 5000).2 = 200 := by
  constructor
  · decide
  · decide

/-- An active user holding the hash of reset token "rtok2", for the
reset-side C2 scenarios. -/
def ginaReset : User :=
  { id := 7, name := "Gina", email := "g@x.com",
    password := some (bcryptHash "ginapw1"), role := "USER",
    provider := "local", provider_id := none, active := 1,
    password_changed_at := none,
    password_reset_token := some (sha256Hex "rtok2"),
    password_reset_expires := some 999999 }

/-- C2 amended: change-password validates only that all three fields are
present, that the new password equals its confirmation and that it differs
from the current password, and reset-password validates only that both
fields are present and equal — each violation rejected with 400 and its own
message (conjuncts 1-3 and 5-6); any new password passing those checks, of
any length and character mix, is accepted by both handlers: each stores its
hash, stamps the change time and answers 200 (conjuncts 4 and 7). -/
theorem password_policy_absent (env : Env) (s : String)
    (hsec : env.jwtSecret = some s)
    (storeC : List User) (uid : Nat) (nowMs : Nat)
    (bM : ChangePwBody)
    (hM : (bM.currentPassword.isEmpty || bM.newPassword.isEmpty ||
           bM.newPasswordConfirm.isEmpty) = true)
    (bX : ChangePwBody)
    (hX1 : (bX.currentPassword.isEmpty || bX.newPassword.isEmpty ||
            bX.newPasswordConfirm.isEmpty) = false)
    (hX2 : (bX.newPassword != bX.newPasswordConfirm) = true)
    (bS : ChangePwBody)
    (hS1 : (bS.currentPassword.isEmpty || bS.newPassword.isEmpty ||
            bS.newPasswordConfirm.isEmpty) = false)
    (hS2 : bS.newPasswordConfirm = bS.newPassword)
    (hS3 : (bS.currentPassword == bS.newPassword) = true)
    (b : ChangePwBody) (user : User)
    (hcur : b.currentPassword.isEmpty = false)
    (hnew : b.newPassword.isEmpty = false)
    (hconf : b.newPasswordConfirm.isEmpty = false)
    (hmatch : b.newPasswordConfirm = b.newPassword)
    (hdiff : (b.currentPassword == b.newPassword) = false)
    (hfind : storeC.find? (fun u => u.id == uid) = some user)
    (hactive : user.active = 1)
    (hpw : user.password = some (bcryptHash b.currentPassword))
    (storeR : List User) (tokR : String) (nowR : Nat)
    (htokR : tokR.isEmpty = false)
    (rM : ResetPwBody)
    (hrM : (rM.newPassword.isEmpty || rM.newPasswordConfirm.isEmpty) = true)
    (rX : ResetPwBody)
    (hrX1 : (rX.newPassword.isEmpty || rX.newPasswordConfirm.isEmpty) = false)
    (hrX2 : (rX.newPassword != rX.newPasswordConfirm) = true)
    (r : ResetPwBody)
    (hr1 : r.newPassword.isEmpty = false)
    (hr2 : r.newPasswordConfirm.isEmpty = false)
    (hreq : r.newPasswordConfirm = r.newPassword)
    (uR : User)
    (hfindR : storeR.find? (resetLookup (sha256Hex tokR) nowR) = some uR)
    (hfidR : storeR.find? (fun u => u.id == uR.id) = some uR)
    (hactiveR : uR.active = 1) :
    changePassword env storeC uid bM nowMs =
      (storeC, .err ⟨400, "Please provide currentPassword, newPassword and newPasswordConfirm"⟩) ∧
    changePassword env storeC uid bX nowMs =
      (storeC, .err ⟨400, "New password and confirmation do not match"⟩) ∧
    changePassword env storeC uid bS nowMs =
      (storeC, .err ⟨400, "New password must be different from current password"⟩) ∧
    (∃ tok, changePassword env storeC uid b nowMs =
      (updateUser storeC uid (fun u =>
         { u with password := some (bcryptHash b.newPassword),
                  password_changed_at := some nowMs }),
       .ok 200 tok
         { user with password := some (bcryptHash b.newPassword),
                     password_changed_at := some nowMs })) ∧
    resetPassword env storeR tokR rM nowR =
      (storeR, .err ⟨400, "Please provide newPassword and newPasswordConfirm"⟩) ∧
    resetPassword env storeR tokR rX nowR =
      (storeR, .err ⟨400, "New password and confirmation do not match"⟩) ∧
    (∃ tok, resetPassword env storeR tokR r nowR =
      (updateUser storeR uR.id (fun u =>
         { u with password := some (bcryptHash r.newPassword),
                  password_changed_at := some nowR,
                  password_reset_token := none,
                  password_reset_expires := none }),
       .ok 200 tok
         { uR with password := some (bcryptHash r.newPassword),
                   password_changed_at := some nowR,
                   password_reset_token := none,
                   password_reset_expires := none })) := by
  refine ⟨?_, ?_, ?_, ?_, ?_, ?_, ?_⟩
  · simp [changePassword, hM]
  · simp [changePassword, hX1, hX2]
  · have h := hS1
    simp only [Bool.or_eq_false_iff] at h
    simp [changePassword, h.1.1, h.1.2, h.2, hS2, bne_self_eq_false, hS3]
  · have hreload :=
      find?_updateUser_of_find? storeC uid
        (fun u => { u with password := some (bcryptHash b.newPassword),
                           password_changed_at := some nowMs })
        (fun _ => rfl) user hfind
    refine ⟨{ payload := { id := user.id, role := user.role,
                           iat := nowMs / 1000,
                           exp := nowMs / 1000 + env.jwtExpiresInSec.getD 604800 },
              secret := s }, ?_⟩
    simp only [changePassword, hcur, hnew, hconf, hmatch, bne_self_eq_false,
      hdiff, hfind, hactive, hpw, jsTruthyStr, Option.getD_some,
      bcryptHash_isEmpty, Bool.not_false, bcryptCompare_self,
      Bool.or_self, Bool.or_false, Bool.false_or]
    simp only [hreload, sendAuthResponse, signToken, hsec]
    simp
    exact hactive
  · simp [resetPassword, htokR, hrM]
  · simp [resetPassword, htokR, hrX1, hrX2]
  · have hreload :=
      find?_updateUser_of_find? storeR uR.id
        (fun u => { u with password := some (bcryptHash r.newPassword),
                           password_changed_at := some nowR,
                           password_reset_token := none,
                           password_reset_expires := none })
        (fun _ => rfl) uR hfidR
    refine ⟨{ payload := { id := uR.id, role := uR.role,
                           iat := nowR / 1000,
                           exp := nowR / 1000 + env.jwtExpiresInSec.getD 604800 },
              secret := s }, ?_⟩
    simp only [resetPassword, htokR, hr1, hr2, hreq, bne_self_eq_false,
      hfindR, hactiveR, hreload, sendAuthResponse, signToken, hsec,
      Bool.or_self, Bool.or_false, Bool.false_or]
    simp

/-- Concrete instance of all seven conjuncts: the digit-free passwords "zz"
(length 2) and "aaa" (length 3) both violate the spec policy yet are
accepted by change-password and reset-password respectively, and each
basic-validation failure yields its 400. -/
theorem password_policy_absent_witness :
    specPasswordPolicy "zz" = false ∧ specPasswordPolicy "aaa" = false ∧
    (changePassword envK [aliceActive] 1 ⟨"", "zz", "zz"⟩ 5000 =
      ([aliceActive], .err ⟨400, "Please provide currentPassword, newPassword and newPasswordConfirm"⟩) ∧
    changePassword envK [aliceActive] 1 ⟨"oldpw1", "zz", "yy"⟩ 5000 =
      ([aliceActive], .err ⟨400, "New password and confirmation do not match"⟩) ∧
    changePassword envK [aliceActive] 1 ⟨"oldpw1", "oldpw1", "oldpw1"⟩ 5000 =
      ([aliceActive], .err ⟨400, "New password must be different from current password"⟩) ∧
    (∃ tok, changePassword envK [aliceActive] 1 ⟨"oldpw1", "zz", "zz"⟩ 5000 =
      (updateUser [aliceActive] 1 (fun u =>
         { u with password := some (bcryptHash "zz"),
                  password_changed_at := some 5000 }),
       .ok 200 tok
         { aliceActive with password := some (bcryptHash "zz"),
                            password_changed_at := some 5000 })) ∧
    resetPassword envK [ginaReset] "rtok2" ⟨"", "aaa"⟩ 1000 =
      ([ginaReset], .err ⟨400, "Please provide newPassword and newPasswordConfirm"⟩) ∧
    resetPassword envK [ginaReset] "rtok2" ⟨"aaa", "bbb"⟩ 1000 =
      ([ginaReset], .err ⟨400, "New password and confirmation do not match"⟩) ∧
    (∃ tok, resetPassword envK [ginaReset] "rtok2" ⟨"aaa", "aaa"⟩ 1000 =
      (updateUser [ginaReset] 7 (fun u =>
         { u with password := some (bcryptHash "aaa"),
                  password_changed_at := some 1000,
                  password_reset_token := none,
                  password_reset_expires := none }),
       .ok 200 tok
         { ginaReset with password := some (bcryptHash "aaa"),
                          password_changed_at := some 1000,
                          password_reset_token := none,
                          password_reset_expires := none }))) :=
  ⟨by decide, by decide,
    password_policy_absent envK "k" rfl [aliceActive] 1 5000
      ⟨"", "zz", "zz"⟩ (by decide)
      ⟨"oldpw1", "zz", "yy"⟩ (by decide) (by decide)
      ⟨"oldpw1", "oldpw1", "oldpw1"⟩ (by decide) rfl (by decide)
      ⟨"oldpw1", "zz", "zz"⟩ aliceActive rfl rfl rfl rfl (by decide)
      (by decide) rfl rfl
      [ginaReset] "rtok2" 1000 rfl
      ⟨"", "aaa"⟩ (by decide)
      ⟨"aaa", "bbb"⟩ (by decide) (by decide)
      ⟨"aaa", "aaa"⟩ rfl rfl rfl
      ginaReset (by decide) (by decide) rfl⟩

/-! ## C3 — password-change rate limiting -/

/-- First password change of the C3 run, at t = 1000 ms. -/
def c3Run1 : List User × AuthOut :=
  changePassword envK [aliceActive] 1 ⟨"oldpw1", "pw1b", "pw1b"⟩ 1000

/-- Second change, 1 s later. -/
def c3Run2 : List User × AuthOut :=
  changePassword envK c3Run1.1 1 ⟨"pw1b", "pw2c", "pw2c"⟩ 2000

/-- Third change, 1 s later. -/
def c3Run3 : List User × AuthOut :=
  changePassword envK c3Run2.1 1 ⟨"pw2c", "pw3d", "pw3d"⟩ 3000

/-- Fourth change of the same user, still within the same hour. -/
def c3Run4 : List User × AuthOut :=
  changePassword envK c3Run3.1 1 ⟨"pw3d", "pw4e", "pw4e"⟩ 4000

/-- C3 counterexample: four valid password changes by the same user within
four seconds all succeed with 200 — the fourth is not rejected with 429 as
the claim requires. -/
theorem changePassword_fourth_in_hour_succeeds :
    authStatus c3Run1.2 = 200 ∧ authStatus c3Run2.2 = 200 ∧
    authStatus c3Run3.2 = 200 ∧ authStatus c3Run4.2 = 200 := by
  refine ⟨?_, ?_, ?_, ?_⟩ <;> decide

/-- C3 amended: there is no rate limiter — the change-password handler has
no 429 outcome at all, so any number of changes within any window is
permitted given otherwise valid inputs. -/
theorem changePassword_never_429 (env : Env) (store : List User) (uid : Nat)
    (b : ChangePwBody) (nowMs : Nat) :
    authStatus (changePassword env store uid b nowMs).2 ≠ 429 := by
  unfold changePassword sendAuthResponse
  repeat' (first | split | simp only [])
  all_goals simp [authStatus]

/-- Concrete instance of the never-429 property. -/
theorem changePassword_never_429_witness :
    authStatus (changePassword envK [aliceActive] 1
      ⟨"oldpw1", "pw1b", "pw1b"⟩ 1000).2 ≠ 429 :=
  changePassword_never_429 envK [aliceActive] 1 ⟨"oldpw1", "pw1b", "pw1b"⟩ 1000

/-! ## C4 — forgot-password account enumeration -/

/-- A disabled user, for the forgot-password comparison. -/
def bobDisabled : User :=
  { id := 2, name := "Bob", email := "b@x.com",
    password := some (bcryptHash "bobpw1"), role := "USER",
    provider := "local", provider_id := none, active := 0,
    password_changed_at := none, password_reset_token := none,
    password_reset_expires := none }

/-- Store holding one active and one disabled user. -/
def c4Store : List User := [aliceActive, bobDisabled]

/-- C4 counterexample: two forgot-password requests, identical except that
one email belongs to an existing active user and the other matches nobody,
produce different client-visible responses — the response for the active account
carries a different message and the plaintext reset token. -/
theorem forgotPassword_distinguishes_accounts :
    (forgotPassword c4Store "a@x.com" "rnd" 0).2 ≠
      (forgotPassword c4Store "c@x.com" "rnd" 0).2 := by
  decide

/-- C4 amended: every case answers HTTP 200, and a nonexistent email is
indistinguishable from a disabled account (identical generic response); but
an existing active account receives a different body — a "testing mode"
message together with the plaintext reset token — so the response does
reveal whether an active account exists. -/
theorem forgotPassword_response_shape (store : List User)
    (e1 e2 e3 rnd : String) (now : Nat) (u2 u3 : User)
    (he1 : e1.isEmpty = false) (he2 : e2.isEmpty = false)
    (he3 : e3.isEmpty = false)
    (h1 : store.find? (fun u => u.email == e1) = none)
    (h2 : store.find? (fun u => u.email == e2) = some u2)
    (hu2 : u2.active ≠ 1)
    (h3 : store.find? (fun u => u.email == e3) = some u3)
    (hu3 : u3.active = 1) :
    (forgotPassword store e1 rnd now).2 =
      .ok 200 "If that email exists, a password reset token has been issued." none ∧
    (forgotPassword store e2 rnd now).2 =
      .ok 200 "If that email exists, a password reset token has been issued." none ∧
    (forgotPassword store e3 rnd now).2 =
      .ok 200 "Password reset token generated (testing mode)." (some rnd) ∧
    (forgotPassword store e3 rnd now).2 ≠ (forgotPassword store e1 rnd now).2 := by
  have r1 : (forgotPassword store e1 rnd now).2 =
      .ok 200 "If that email exists, a password reset token has been issued." none := by
    simp [forgotPassword, he1, h1]
  have r3 : (forgotPassword store e3 rnd now).2 =
      .ok 200 "Password reset token generated (testing mode)." (some rnd) := by
    simp [forgotPassword, he3, h3, hu3]
  refine ⟨r1, ?_, r3, ?_⟩
  · simp [forgotPassword, he2, h2, hu2]
  · rw [r1, r3]
    simp

/-- Concrete instance of the three response shapes. -/
theorem forgotPassword_response_shape_witness :
    (forgotPassword c4Store "c@x.com" "rnd" 0).2 =
      .ok 200 "If that email exists, a password reset token has been issued." none ∧
    (forgotPassword c4Store "b@x.com" "rnd" 0).2 =
      .ok 200 "If that email exists, a password reset token has been issued." none ∧
    (forgotPassword c4Store "a@x.com" "rnd" 0).2 =
      .ok 200 "Password reset token generated (testing mode)." (some "rnd") ∧
    (forgotPassword c4Store "a@x.com" "rnd" 0).2 ≠
      (forgotPassword c4Store "c@x.com" "rnd" 0).2 :=
  forgotPassword_response_shape c4Store "c@x.com" "b@x.com" "a@x.com" "rnd" 0
    bobDisabled aliceActive rfl rfl rfl (by decide) (by decide) (by decide)
    (by decide) rfl

/-! ## C5 — reset token is single use -/

/-- C5: a reset succeeds only when the `password_reset_token` of some stored row
equals the SHA-256 of the supplied token with `password_reset_expires`
strictly in the future (third conjunct, over any store); on success both
reset fields are cleared in the stored row, so a second reset attempt with
the same token — at any later instant, with any valid body — fails with the
invalid-or-expired 400 (second conjunct). The uniqueness hypothesis
`huniq` reflects that reset-token hashes are 32 random bytes stored for a
single user. -/
theorem reset_token_single_use (env : Env) (store : List User) (tok : String)
    (b b2 : ResetPwBody) (nowMs now2 : Nat) (u0 : User) (s : String)
    (htok : tok.isEmpty = false)
    (hb1 : b.newPassword.isEmpty = false)
    (hb2 : b.newPasswordConfirm.isEmpty = false)
    (hbeq : b.newPasswordConfirm = b.newPassword)
    (hfind : store.find? (resetLookup (sha256Hex tok) nowMs) = some u0)
    (hfid : store.find? (fun u => u.id == u0.id) = some u0)
    (hactive : u0.active = 1)
    (hsec : env.jwtSecret = some s)
    (huniq : ∀ v ∈ store, v.password_reset_token = some (sha256Hex tok) →
       v.id = u0.id)
    (hb21 : b2.newPassword.isEmpty = false)
    (hb22 : b2.newPasswordConfirm.isEmpty = false)
    (hbeq2 : b2.newPasswordConfirm = b2.newPassword) :
    (u0 ∈ store ∧ u0.password_reset_token = some (sha256Hex tok) ∧
       ∃ e, u0.password_reset_expires = some e ∧ nowMs < e) ∧
    (∃ tk st2, resetPassword env store tok b nowMs =
        (st2, .ok 200 tk
          { u0 with password := some (bcryptHash b.newPassword),
                    password_changed_at := some nowMs,
                    password_reset_token := none,
                    password_reset_expires := none }) ∧
       resetPassword env st2 tok b2 now2 =
         (st2, .err ⟨400, "Token is invalid or has expired"⟩)) ∧
    (∀ store0 b0 now0 st0 s0 tk0 up0,
       resetPassword env store0 tok b0 now0 = (st0, .ok s0 tk0 up0) →
       ∃ w, w ∈ store0 ∧ w.password_reset_token = some (sha256Hex tok) ∧
         ∃ e, w.password_reset_expires = some e ∧ now0 < e) := by
  have hmem := List.mem_of_find?_eq_some hfind
  have hpred := List.find?_some hfind
  unfold resetLookup at hpred
  rw [Bool.and_eq_true] at hpred
  obtain ⟨htk0, hex0⟩ := hpred
  have htk0' : u0.password_reset_token = some (sha256Hex tok) := by
    simpa using htk0
  refine ⟨⟨hmem, htk0', ?_⟩, ?_, ?_⟩
  · revert hex0
    cases u0.password_reset_expires with
    | none => simp
    | some e => intro hex; exact ⟨e, rfl, by simpa using hex⟩
  · -- the successful first run, then the failing second run
    have hreload :=
      find?_updateUser_of_find? store u0.id
        (fun u => { u with password := some (bcryptHash b.newPassword),
                           password_changed_at := some nowMs,
                           password_reset_token := none,
                           password_reset_expires := none })
        (fun _ => rfl) u0 hfid
    refine ⟨{ payload := { id := u0.id, role := u0.role, iat := nowMs / 1000,
                           exp := nowMs / 1000 + env.jwtExpiresInSec.getD 604800 },
              secret := s },
            updateUser store u0.id
              (fun u => { u with password := some (bcryptHash b.newPassword),
                                 password_changed_at := some nowMs,
                                 password_reset_token := none,
                                 password_reset_expires := none }), ?_, ?_⟩
    · simp only [resetPassword, htok, hb1, hb2, hbeq, bne_self_eq_false,
        hfind, hactive, hreload, sendAuthResponse, signToken, hsec]
      simp
    · have hnone : (updateUser store u0.id
          (fun u => { u with password := some (bcryptHash b.newPassword),
                             password_changed_at := some nowMs,
                             password_reset_token := none,
                             password_reset_expires := none })).find?
            (resetLookup (sha256Hex tok) now2) = none := by
        rw [List.find?_eq_none]
        intro v hv
        simp only [updateUser, List.mem_map] at hv
        obtain ⟨orig, ho, hvo⟩ := hv
        by_cases hc : (orig.id == u0.id) = true
        · rw [if_pos hc] at hvo
          rw [← hvo]
          simp [resetLookup]
        · rw [if_neg hc] at hvo
          rw [← hvo]
          intro hcontra
          unfold resetLookup at hcontra
          rw [Bool.and_eq_true] at hcontra
          have : orig.password_reset_token = some (sha256Hex tok) := by
            simpa using hcontra.1
          exact hc (by simp [huniq orig ho this])
      simp only [resetPassword, htok, hb21, hb22, hbeq2, bne_self_eq_false,
        hnone]
      simp
  · intro store0 b0 now0 st0 s0 tk0 up0 h0
    exact resetPassword_ok_requires_lookup env store0 tok b0 now0 st0 s0 tk0
      up0 h0

/-- An active user holding the hash of reset token "rtok", expiring at
999999 ms. -/
def daveReset : User :=
  { id := 4, name := "Dave", email := "d@x.com",
    password := some (bcryptHash "davepw1"), role := "USER",
    provider := "local", provider_id := none, active := 1,
    password_changed_at := none,
    password_reset_token := some (sha256Hex "rtok"),
    password_reset_expires := some 999999 }

/-- Concrete instance: the reset for Dave with token "rtok" succeeds once and the same
token is rejected on the second attempt. -/
theorem reset_token_single_use_witness :
    ∃ tk st2, resetPassword envK [daveReset] "rtok" ⟨"newp1", "newp1"⟩ 1000 =
        (st2, .ok 200 tk
          { daveReset with password := some (bcryptHash "newp1"),
                           password_changed_at := some 1000,
                           password_reset_token := none,
                           password_reset_expires := none }) ∧
      resetPassword envK st2 "rtok" ⟨"again2", "again2"⟩ 2000 =
        (st2, .err ⟨400, "Token is invalid or has expired"⟩) :=
  (reset_token_single_use envK [daveReset] "rtok" ⟨"newp1", "newp1"⟩
    ⟨"again2", "again2"⟩ 1000 2000 daveReset "k" rfl rfl rfl rfl (by decide)
    (by decide) rfl rfl (by decide) rfl rfl rfl).2.1

/-! ## C6 — disabled accounts cannot authenticate -/

/-- C6: a user whose `active` flag is not 1 is rejected with 403 on every
authentication path, regardless of credential correctness: password login
(for any supplied password), token authentication through `protect` (for a
token that passes signature/expiry verification), and federated Google
login (for a verified assertion resolving to that user). -/
theorem disabled_account_rejected (env : Env) (store : List User)
    (user : User) (hdis : user.active ≠ 1)
    (emailB pwB : String) (nowSec : Nat)
    (he : emailB.isEmpty = false) (hp : pwB.isEmpty = false)
    (hfindE : store.find? (fun u => u.email == emailB) = some user)
    (secret : String) (t : Jwt)
    (hsec : env.jwtSecret = some secret) (hts : t.secret = secret)
    (hexp : nowSec < t.payload.exp) (hid : t.payload.id ≠ 0)
    (hfindI : store.find? (fun u => u.id == t.payload.id) = some user)
    (cred : Option String) (p : GooglePayload) (nid : Nat) (gid : String)
    (hcred : jsTruthyStr cred = true)
    (hg : env.googleClientId = some gid)
    (hsub : p.sub.isEmpty = false)
    (hem : jsTruthyStr p.email = true)
    (hnorm : (normalizeEmail (p.email.getD "")).isEmpty = false)
    (hver : p.email_verified = true)
    (hfindG : store.find? (fun u =>
        u.provider == "google" && u.provider_id == some p.sub) = some user) :
    login env store ⟨emailB, pwB⟩ nowSec = .err ⟨403, "Account is disabled"⟩ ∧
    protect env store ⟨some t, none⟩ nowSec =
      .err ⟨403, "This account is disabled."⟩ ∧
    (googleAuthHandler env store cred (some p) nid nowSec).2 =
      .err ⟨403, "Account is disabled"⟩ := by
  have hv := jwtVerify_valid t secret nowSec hts hexp
  refine ⟨?_, ?_, ?_⟩
  · simp [login, he, hp, hfindE, hdis]
  · simp [protect, hsec, hv, hid, hfindI, hdis]
  · simp [googleAuthHandler, hcred, hg, hsub, hem, hnorm, hver, hfindG, hdis,
      jsTruthyStr_some]

/-- A disabled user reachable by email, id and Google identity. -/
def eveDisabled : User :=
  { id := 5, name := "Eve", email := "e@x.com",
    password := some (bcryptHash "evepw1"), role := "USER",
    provider := "google", provider_id := some "gsub5", active := 0,
    password_changed_at := none, password_reset_token := none,
    password_reset_expires := none }

/-- Concrete instance: Eve (active = 0) is rejected with 403 on all three
paths even with correct credentials. -/
theorem disabled_account_rejected_witness :
    login envK [eveDisabled] ⟨"e@x.com", "evepw1"⟩ 20 =
      .err ⟨403, "Account is disabled"⟩ ∧
    protect envK [eveDisabled] ⟨some ⟨⟨5, "USER", 10, 604810⟩, "k"⟩, none⟩ 20 =
      .err ⟨403, "This account is disabled."⟩ ∧
    (googleAuthHandler envK [eveDisabled] (some "cred")
        (some ⟨"gsub5", some "e@x.com", true, "Eve"⟩) 9 20).2 =
      .err ⟨403, "Account is disabled"⟩ :=
  disabled_account_rejected envK [eveDisabled] eveDisabled (by decide)
    "e@x.com" "evepw1" 20 rfl rfl (by decide) "k"
    ⟨⟨5, "USER", 10, 604810⟩, "k"⟩ rfl rfl (by decide) (by decide)
    (by decide) (some "cred") ⟨"gsub5", some "e@x.com", true, "Eve"⟩ 9 "g"
    rfl rfl rfl rfl (by decide) rfl (by decide)

/-! ## C10 — google email-merge is not atomic with the disabled check -/

/-- C10: when a verified Google assertion matches no user by
(provider google, providerId) but its email matches an existing user whose
`active` flag is not 1, the handler first persists provider google and
the Google subject as provider_id on that user row and only then rejects with 403 — the
store keeps the modified provider fields despite the error response. -/
theorem google_disabled_merge_persists (env : Env) (store : List User)
    (cred : Option String) (p : GooglePayload) (nid nowSec : Nat)
    (gid : String) (existing : User)
    (hcred : jsTruthyStr cred = true)
    (hg : env.googleClientId = some gid)
    (hsub : p.sub.isEmpty = false)
    (hem : jsTruthyStr p.email = true)
    (hnorm : (normalizeEmail (p.email.getD "")).isEmpty = false)
    (hver : p.email_verified = true)
    (hnoprov : store.find? (fun u =>
        u.provider == "google" && u.provider_id == some p.sub) = none)
    (hfindE : store.find? (fun u =>
        u.email == normalizeEmail (p.email.getD "")) = some existing)
    (hfid : store.find? (fun u => u.id == existing.id) = some existing)
    (hdis : existing.active ≠ 1) :
    googleAuthHandler env store cred (some p) nid nowSec =
      (updateUser store existing.id (fun u =>
         { u with provider := "google", provider_id := some p.sub }),
       .err ⟨403, "Account is disabled"⟩) ∧
    (updateUser store existing.id (fun u =>
        { u with provider := "google", provider_id := some p.sub })).find?
        (fun u => u.id == existing.id) =
      some { existing with provider := "google",
                           provider_id := some p.sub } := by
  have hreload :=
    find?_updateUser_of_find? store existing.id
      (fun u => { u with provider := "google", provider_id := some p.sub })
      (fun _ => rfl) existing hfid
  constructor
  · simp [googleAuthHandler, hcred, hg, hsub, hem, hnorm, hver, hnoprov,
      hfindE, hreload, hdis, jsTruthyStr_some]
  · exact hreload

/-- A disabled local user whose email matches the Google assertion. -/
def frankDisabled : User :=
  { id := 6, name := "Frank", email := "f@x.com",
    password := some (bcryptHash "frankpw1"), role := "USER",
    provider := "local", provider_id := none, active := 0,
    password_changed_at := none, password_reset_token := none,
    password_reset_expires := none }

/-- Concrete instance: Frank (local, disabled) gets his provider fields
overwritten to the Google identity and the request is then rejected 403. -/
theorem google_disabled_merge_persists_witness :
    googleAuthHandler envK [frankDisabled] (some "cred")
        (some ⟨"gsub6", some "f@x.com", true, "Frank"⟩) 9 20 =
      (updateUser [frankDisabled] 6 (fun u =>
         { u with provider := "google", provider_id := some "gsub6" }),
       .err ⟨403, "Account is disabled"⟩) ∧
    (updateUser [frankDisabled] 6 (fun u =>
        { u with provider := "google", provider_id := some "gsub6" })).find?
        (fun u => u.id == 6) =
      some { frankDisabled with provider := "google",
                                provider_id := some "gsub6" } :=
  google_disabled_merge_persists envK [frankDisabled] (some "cred")
    ⟨"gsub6", some "f@x.com", true, "Frank"⟩ 9 20 "g" frankDisabled
    rfl rfl rfl rfl (by decide) rfl (by decide) (by decide) (by decide)
    (by decide)

end MovieAuth
